import Mathlib

/-!
  # PlanVector upload workflow — shallow embedding

  Embedding of the core workflow of src/planvector_app/pages/app/upload.tsx:

  * `fileToPNGDataURL` — the PageRasterizer: a PDF is rendered page by page
    (scale 2.0, at most 5 pages) to PNG data URLs; any other file is returned
    unchanged as a single object URL.
  * `handleUpload` — the PlanProcessingWorkflow (processFirstPage): inserts a
    Plan row, rasterizes, uploads the first page to the `plans` bucket, calls
    the vectorization worker, decodes and stores the SVG in the `outputs`
    bucket, inserts an Output row, and finally updates the Plan row to
    status `processed` with the rasterized page count.
  * `approveExport` — the ReviewWorkflow (approveAndExport): resolves the most
    recently created Plan, appends a Review row and a `usage_ledger` debit of
    one credit, builds a CSV artifact from the in-memory metrics, uploads it,
    and links it to the Output row.

  Modelling conventions:

  * The RecordStore (supabase tables `plans`, `outputs`, `reviews`,
    `usage_ledger`) and the ObjectStore (buckets with upsert uploads) are one
    explicit `Store` value threaded through each operation.
  * Row ids and creation times are DB-generated in the source; the model
    draws both from a single monotone counter `nextId`, so creation order and
    `created_at` order coincide.
  * The source checks errors only at four points: the Plan insert
    (`planErr`), the page upload (`uploadRes.error`), the SVG upload
    (`svgUp.error`) and the CSV upload (`up.error`); the remote worker call
    can also fail (rejected fetch, malformed JSON, or an `svg` field that
    `atob` rejects). Exactly these failure points are environment knobs in
    `Env` / `ApproveEnv`; the remaining awaited writes are unchecked in the
    source and are modelled as succeeding.
  * The worker request fields (public image URL, `px_per_ft`) influence the
    stored state only through the response, so the response itself is the
    environment input `vectorizeResult`.
  * JavaScript `atob` (base64 to a byte-per-character string) and the
    `Blob([string])` constructor (which UTF-8 encodes the string) are
    modelled byte-exactly by `atob` and `utf8Encode` below: this is where
    the decode-then-store path of the SVG payload lives.
-/

/-- A rasterized page: either a PDF page rendered to a canvas at a given
integer scale factor (the source uses the fixed literal 2.0), or the object
URL of a non-PDF file returned unchanged. -/
inductive PageImage where
  | rendered (scale : Nat) (content : String)
  | objectURL (content : String)
deriving DecidableEq

/-- An uploaded file as the rasterizer sees it: a parseable PDF with its list
of page contents, a file declared `application/pdf` that the PDF library
rejects, or any other file (the source does not inspect non-PDF types). -/
inductive UploadFile where
  | pdf (pdfName : String) (pages : List String)
  | pdfMalformed (pdfName : String)
  | other (otherName : String) (content : String)
deriving DecidableEq

/-- The `file.name` used for the Plan row. -/
def UploadFile.fileName : UploadFile → String
  | .pdf n _ => n
  | .pdfMalformed n => n
  | .other n _ => n

/-- Failure of the rasterizer: `pdfjsLib.getDocument` rejecting a malformed
PDF. The source has no other failure path and no format validation. -/
inductive RasterError where
  | pdfLoadFailure
deriving DecidableEq

/-- The PageRasterizer (source lines 33-53): a PDF yields its first
`min(numPages, 5)` pages rendered at scale 2.0; a malformed PDF aborts with
the load failure; any other file is returned as a single object URL. -/
def fileToPNGDataURL : UploadFile → Except RasterError (List PageImage)
  | .pdf _ pages => .ok ((pages.take 5).map (PageImage.rendered 2))
  | .pdfMalformed _ => .error .pdfLoadFailure
  | .other _ content => .ok [PageImage.objectURL content]

/-! ## Base64 decoding (`atob`) and UTF-8 encoding (`Blob` of a string) -/

/-- The base64 alphabet in index order. -/
def b64Chars : List Char :=
  "ABCDEFGHIJKLMNOPQRSTUVWXYZabcdefghijklmnopqrstuvwxyz0123456789+/".toList

/-- The 6-bit value of a base64 character, if it is one. -/
def sextet (c : Char) : Option Nat :=
  b64Chars.findIdx? (fun x => x == c)

/-- Character of a 6-bit value. -/
def b64Char (n : Nat) : Char := b64Chars.getD n 'A'

/-- Decode one base64 quartet into its one, two or three bytes; padding
characters may appear only in the last two positions. -/
def atobGroup (a b c d : Char) : Option (List Nat) :=
  match sextet a, sextet b with
  | some va, some vb =>
    if c = '=' then
      if d = '=' then some [va * 4 + vb / 16] else none
    else
      match sextet c with
      | some vc =>
        if d = '=' then some [va * 4 + vb / 16, (vb % 16) * 16 + vc / 4]
        else
          match sextet d with
          | some vd =>
              some [va * 4 + vb / 16, (vb % 16) * 16 + vc / 4, (vc % 4) * 64 + vd]
          | none => none
      | none => none
  | _, _ => none

/-- Decode a base64 character list quartet by quartet; padding is legal only
in the final quartet, and a leftover of 1-3 characters is rejected. -/
def atobChars : List Char → Option (List Nat)
  | [] => some []
  | a :: b :: c :: d :: rest =>
    match atobGroup a b c d with
    | none => none
    | some g =>
      if rest ≠ [] ∧ (c = '=' ∨ d = '=') then none
      else
        match atobChars rest with
        | none => none
        | some r => some (g ++ r)
  | _ => none

/-- JavaScript `atob`: decode a base64 string to the list of byte values of
the binary string it denotes (`none` models the thrown
`InvalidCharacterError`). -/
def atob (s : String) : Option (List Nat) := atobChars s.toList

/-- Standard base64 encoding of a byte list, as the vectorization service
produces for the `svg` field. -/
def base64Encode : List Nat → String
  | [] => ""
  | [b0] =>
      String.mk [b64Char (b0 / 4), b64Char ((b0 % 4) * 16), '=', '=']
  | [b0, b1] =>
      String.mk [b64Char (b0 / 4), b64Char ((b0 % 4) * 16 + b1 / 16),
                 b64Char ((b1 % 16) * 4), '=']
  | b0 :: b1 :: b2 :: rest =>
      String.mk [b64Char (b0 / 4), b64Char ((b0 % 4) * 16 + b1 / 16),
                 b64Char ((b1 % 16) * 4 + b2 / 64), b64Char (b2 % 64)]
        ++ base64Encode rest

/-- UTF-8 encoding of one code point below 0x800 — every character `atob`
can produce is below 0x100, so the one- and two-byte forms suffice. -/
def utf8EncodeChar (c : Nat) : List Nat :=
  if c < 128 then [c] else [192 + c / 64, 128 + c % 64]

/-- UTF-8 encoding of a code-point list: what `new Blob([s])` stores for the
string `s`. -/
def utf8Encode (cs : List Nat) : List Nat :=
  (cs.map utf8EncodeChar).flatten

/-! ## Data model -/

/-- The pass-through metrics of a vectorization response. The core never
computes with them, so each value is carried as its decimal rendering. -/
structure Metrics where
  walls_len_ft : String
  line_count : String
deriving DecidableEq

/-- The worker response body: a base64-encoded SVG payload, metrics, and a
confidence score (opaque pass-through). -/
structure VecResponse where
  svg : String
  metrics : Metrics
  confidence : String
deriving DecidableEq

/-- A `plans` row. The source insert supplies `user_id`, `name` and
`page_count = 0`; `id`, `created_at` and the initial status `created` are
DB-side. -/
structure Plan where
  id : Nat
  user_id : String
  planName : String
  page_count : Nat
  status : String
  created_at : Nat
deriving DecidableEq

/-- An `outputs` row. -/
structure OutputRow where
  plan_id : Nat
  svg_path : String
  dxf_path : Option String
  csv_path : Option String
  metrics : Metrics
  confidence : String
deriving DecidableEq

/-- A `reviews` row. -/
structure ReviewRow where
  plan_id : Nat
  status : String
deriving DecidableEq

/-- A `usage_ledger` row. -/
structure LedgerEntry where
  user_id : String
  plan_id : Nat
  event : String
  delta_credits : Int
deriving DecidableEq

/-- Contents of a stored blob: the fetched first-page image, raw bytes (the
SVG store), or text (the CSV store). -/
inductive BlobData where
  | image (img : PageImage)
  | bytes (bs : List Nat)
  | text (s : String)
deriving DecidableEq

/-- The authenticated user, reduced to the opaque id the workflow uses. -/
structure User where
  id : String
deriving DecidableEq

/-- The combined RecordStore and ObjectStore state. `blobs` entries are
(bucket, path, data); `nextId` generates both row ids and creation times. -/
structure Store where
  nextId : Nat
  plans : List Plan
  outputs : List OutputRow
  reviews : List ReviewRow
  usage_ledger : List LedgerEntry
  blobs : List (String × String × BlobData)
deriving DecidableEq

/-- Upsert a blob: last writer wins at a (bucket, path) key, matching the
source uploads with `upsert: true`. -/
def putBlob (bucket path : String) (d : BlobData)
    (bs : List (String × String × BlobData)) : List (String × String × BlobData) :=
  (bucket, path, d) :: bs.filter (fun e => !(e.1 == bucket && e.2.1 == path))

/-- Look a blob up by bucket and path. -/
def getBlob (bucket path : String)
    (bs : List (String × String × BlobData)) : Option BlobData :=
  (bs.find? (fun e => e.1 == bucket && e.2.1 == path)).map (fun e => e.2.2)

/-- The `plans`-bucket object path of the first page raster. -/
def pngPath (uid : String) (planId : Nat) : String :=
  "user-" ++ uid ++ "/" ++ toString planId ++ "/page-1.png"

/-- The `outputs`-bucket object path of the stored SVG. -/
def svgPathOf (uid : String) (planId : Nat) : String :=
  "user-" ++ uid ++ "/" ++ toString planId ++ "/page-1.svg"

/-- The `outputs`-bucket object path of the exported CSV. -/
def csvPathOf (uid : String) (planId : Nat) : String :=
  "user-" ++ uid ++ "/" ++ toString planId ++ "/page-1.csv"

/-! ## processFirstPage (`handleUpload`) -/

/-- How one `handleUpload` call ends, one constructor per exit of the source
function: the silent guard return, the four checked failures, the worker
failure, the abort when the rasterizer returned no first page (the source
would fetch an undefined URL), and the success exit. -/
inductive UploadOutcome where
  | noOp
  | persistenceError
  | rasterFailure (e : RasterError)
  | firstPageUnavailable
  | storageError
  | vectorizationError
  | svgStorageError
  | processed
deriving DecidableEq

/-- The environment of one `handleUpload` call: whether each checked write
fails, and the worker response (`.error ()` models a rejected fetch or
unparseable JSON body). -/
structure Env where
  planInsertFails : Bool
  pageUploadFails : Bool
  vectorizeResult : Except Unit VecResponse
  svgUploadFails : Bool

/-- processFirstPage (source lines 60-129). Returns the outcome and the
store after the call. Step order is that of the source: plan insert, page
rasterization, first-page upload to the `plans` bucket, worker call, base64
decode plus `Blob` UTF-8 encoding of the SVG payload, SVG upload to the
`outputs` bucket, Output row insert, and last the Plan row update to
`page_count = pageCount, status = processed`. -/
def handleUpload (user : Option User) (file : Option UploadFile) (env : Env)
    (st : Store) : UploadOutcome × Store :=
  match user, file with
  | some u, some f =>
    if env.planInsertFails then (.persistenceError, st)
    else
      let planId := st.nextId
      let newPlan : Plan :=
        { id := planId, user_id := u.id, planName := f.fileName,
          page_count := 0, status := "created", created_at := st.nextId }
      let st1 := { st with nextId := st.nextId + 1, plans := st.plans ++ [newPlan] }
      match fileToPNGDataURL f with
      | .error e => (.rasterFailure e, st1)
      | .ok dataUrls =>
        match dataUrls with
        | [] => (.firstPageUnavailable, st1)
        | firstPage :: _ =>
          if env.pageUploadFails then (.storageError, st1)
          else
            let st2 := { st1 with
              blobs := putBlob "plans" (pngPath u.id planId) (.image firstPage) st1.blobs }
            match env.vectorizeResult with
            | .error _ => (.vectorizationError, st2)
            | .ok json =>
              match atob json.svg with
              | none => (.vectorizationError, st2)
              | some svgBytes =>
                if env.svgUploadFails then (.svgStorageError, st2)
                else
                  let st3 := { st2 with
                    blobs := putBlob "outputs" (svgPathOf u.id planId)
                      (.bytes (utf8Encode svgBytes)) st2.blobs }
                  let out : OutputRow :=
                    { plan_id := planId, svg_path := svgPathOf u.id planId,
                      dxf_path := none, csv_path := none,
                      metrics := json.metrics, confidence := json.confidence }
                  let st4 := { st3 with outputs := st3.outputs ++ [out] }
                  let st5 := { st4 with
                    plans := st4.plans.map (fun p =>
                      if p.id = planId then
                        { p with page_count := dataUrls.length, status := "processed" }
                      else p) }
                  (.processed, st5)
  | _, _ => (.noOp, st)

/-! ## approveAndExport (`approveExport`) -/

/-- How one `approveExport` call ends: the silent guard return, the silent
return when no Plan row exists (the NotFound abort of the spec), the silent
CSV upload failure, and the success exit. -/
inductive ApproveOutcome where
  | noOp
  | notFound
  | storageError
  | exported
deriving DecidableEq

/-- The environment of one `approveExport` call. -/
structure ApproveEnv where
  csvUploadFails : Bool
deriving DecidableEq

/-- One step of resolving the most recent Plan: keep whichever of the
accumulator and the next row was created later. -/
def latestStep (acc : Option Plan) (p : Plan) : Option Plan :=
  match acc with
  | none => some p
  | some q => if p.created_at > q.created_at then some p else some q

/-- The Plan row the source query `order(created_at, descending).limit(1)`
resolves: a row maximal by `created_at` (`none` on an empty table). -/
def latestPlan (plans : List Plan) : Option Plan :=
  plans.foldl latestStep none

/-- The CSV artifact of source line 154. -/
def buildCsv (m : Metrics) : String :=
  "metric,value\n" ++ "walls_len_ft," ++ m.walls_len_ft ++ "\n"
    ++ "line_count," ++ m.line_count ++ "\n"

/-- approveAndExport (source lines 136-164): resolve the most recently
created Plan system-wide, append a Review row and an unconditional
one-credit ledger debit, build and upload the CSV, and on upload success set
`csv_path` on the Output rows of that plan. -/
def approveExport (user : Option User) (preview : Option VecResponse)
    (env : ApproveEnv) (st : Store) : ApproveOutcome × Store :=
  match user, preview with
  | some u, some prev =>
    match latestPlan st.plans with
    | none => (.notFound, st)
    | some lp =>
      let st1 := { st with
        reviews := st.reviews ++ [ReviewRow.mk lp.id "approved"] }
      let st2 := { st1 with
        usage_ledger := st1.usage_ledger ++
          [LedgerEntry.mk u.id lp.id "export_approved" (-1)] }
      let csv := buildCsv prev.metrics
      if env.csvUploadFails then (.storageError, st2)
      else
        let st3 := { st2 with
          blobs := putBlob "outputs" (csvPathOf u.id lp.id) (.text csv) st2.blobs }
        let st4 := { st3 with
          outputs := st3.outputs.map (fun o =>
            if o.plan_id = lp.id then { o with csv_path := some (csvPathOf u.id lp.id) }
            else o) }
        (.exported, st4)
  | _, _ => (.noOp, st)

/-! ## Derived notions used by the statements -/

/-- The Output rows of a given plan. -/
def outputsFor (st : Store) (pid : Nat) : List OutputRow :=
  st.outputs.filter (fun o => o.plan_id == pid)

/-- The first Plan row with a given id. -/
def findPlan (st : Store) (pid : Nat) : Option Plan :=
  st.plans.find? (fun p => p.id == pid)

/-- The credit balance of the ledger: the sum of all deltas. -/
def ledgerSum (l : List LedgerEntry) : Int :=
  (l.map (fun e => e.delta_credits)).sum

/-- A store whose generated-id counter is fresh: every Plan id, Output
foreign key and creation time is below `nextId`. Every store reachable from
the empty store through the two operations satisfies this. -/
def FreshIds (st : Store) : Prop :=
  (∀ p ∈ st.plans, p.id < st.nextId ∧ p.created_at < st.nextId) ∧
  (∀ o ∈ st.outputs, o.plan_id < st.nextId)

instance (st : Store) : Decidable (FreshIds st) := by
  unfold FreshIds; infer_instance

/-- Iterated approval: `n` successive `approveExport` calls by the same user
with the same in-memory preview. -/
def approveRepeat (u : User) (prev : VecResponse) (env : ApproveEnv)
    (st : Store) : Nat → Store
  | 0 => st
  | n + 1 => approveRepeat u prev env ((approveExport (some u) (some prev) env st).2) n

/-! ## Helper lemmas -/

/-- Looking up the key just upserted finds the new data: last writer wins. -/
theorem getBlob_putBlob_same (bucket path : String) (d : BlobData)
    (bs : List (String × String × BlobData)) :
    getBlob bucket path (putBlob bucket path d bs) = some d := by
  simp [getBlob, putBlob, List.find?]

/-- Appending one entry adds its delta to the ledger balance. -/
theorem ledgerSum_append (l : List LedgerEntry) (e : LedgerEntry) :
    ledgerSum (l ++ [e]) = ledgerSum l + e.delta_credits := by
  simp [ledgerSum]

/-- No branch of `approveExport` touches the `plans` table. -/
theorem approveExport_plans (user : Option User) (preview : Option VecResponse)
    (env : ApproveEnv) (st : Store) :
    (approveExport user preview env st).2.plans = st.plans := by
  unfold approveExport
  cases user with
  | none => rfl
  | some u =>
    cases preview with
    | none => rfl
    | some prev =>
      cases hl : latestPlan st.plans with
      | none => simp
      | some lp =>
        by_cases hc : env.csvUploadFails <;> simp [hc]

/-- Once the Plan is resolved, `approveExport` appends exactly the one
`export_approved` debit of one credit, whether or not the CSV upload
succeeds. -/
theorem approveExport_ledger (u : User) (prev : VecResponse) (env : ApproveEnv)
    (st : Store) (lp : Plan) (h : latestPlan st.plans = some lp) :
    (approveExport (some u) (some prev) env st).2.usage_ledger
      = st.usage_ledger ++ [LedgerEntry.mk u.id lp.id "export_approved" (-1)] := by
  simp only [approveExport, h]
  by_cases hc : env.csvUploadFails <;> simp [hc]

/-- Once the Plan is resolved, `approveExport` appends exactly the one
approved Review row, whether or not the CSV upload succeeds. -/
theorem approveExport_reviews (u : User) (prev : VecResponse) (env : ApproveEnv)
    (st : Store) (lp : Plan) (h : latestPlan st.plans = some lp) :
    (approveExport (some u) (some prev) env st).2.reviews
      = st.reviews ++ [ReviewRow.mk lp.id "approved"] := by
  simp only [approveExport, h]
  by_cases hc : env.csvUploadFails <;> simp [hc]

/-- Fold invariant of `latestStep`: the result is drawn from the list or the
accumulator and dominates both in creation time. -/
theorem latestStep_foldl (l : List Plan) : ∀ (acc : Option Plan) (p : Plan),
    l.foldl latestStep acc = some p →
    (p ∈ l ∨ acc = some p) ∧ (∀ q ∈ l, q.created_at ≤ p.created_at) ∧
    (∀ q, acc = some q → q.created_at ≤ p.created_at) := by
  induction l with
  | nil =>
    intro acc p h
    simp only [List.foldl_nil] at h
    refine ⟨Or.inr h, by simp, ?_⟩
    intro q hq
    rw [h] at hq
    cases hq
    exact le_refl _
  | cons a tl ih =>
    intro acc p h
    simp only [List.foldl_cons] at h
    obtain ⟨h1, h2, h3⟩ := ih (latestStep acc a) p h
    have ha : a.created_at ≤ p.created_at := by
      cases acc with
      | none => exact h3 a rfl
      | some q0 =>
        by_cases hgt : a.created_at > q0.created_at
        · exact h3 a (by simp [latestStep, hgt])
        · have hq0 : q0.created_at ≤ p.created_at := h3 q0 (by simp [latestStep, hgt])
          omega
    refine ⟨?_, ?_, ?_⟩
    · rcases h1 with hmem | hacc
      · exact Or.inl (List.mem_cons_of_mem a hmem)
      · cases acc with
        | none =>
          simp only [latestStep] at hacc
          exact Or.inl (by rw [← Option.some_inj.mp hacc]; exact List.mem_cons_self a tl)
        | some q0 =>
          by_cases hgt : a.created_at > q0.created_at
          · simp only [latestStep, hgt, if_pos] at hacc
            exact Or.inl (by rw [← Option.some_inj.mp hacc]; exact List.mem_cons_self a tl)
          · simp only [latestStep, hgt, if_neg] at hacc
            exact Or.inr (by rw [Option.some_inj.mp hacc])
    · intro q hq
      rcases List.mem_cons.mp hq with rfl | hmem
      · exact ha
      · exact h2 q hmem
    · intro q hq
      subst hq
      by_cases hgt : a.created_at > q.created_at
      · have h5 := h3 a (by simp [latestStep, hgt])
        omega
      · exact h3 q (by simp [latestStep, hgt])

/-- The resolved Plan is a member of the table and is maximal by creation
time. -/
theorem latestPlan_spec (plans : List Plan) (p : Plan)
    (h : latestPlan plans = some p) :
    p ∈ plans ∧ ∀ q ∈ plans, q.created_at ≤ p.created_at := by
  obtain ⟨h1, h2, _⟩ := latestStep_foldl plans none p h
  rcases h1 with hmem | hacc
  · exact ⟨hmem, h2⟩
  · cases hacc

/-! ## Concrete fixtures for witnesses -/

/-- A concrete user. -/
def u0 : User := ⟨"u1"⟩

/-- A concrete worker preview kept in memory by the page. -/
def prev0 : VecResponse := ⟨base64Encode [60], ⟨"120.5", "34"⟩, "0.9"⟩

/-- A concrete Plan row. -/
def plan0 : Plan := ⟨0, "u1", "plan.png", 0, "created", 0⟩

/-- A store holding exactly `plan0`, with a fresh id counter. -/
def stPlan : Store := ⟨1, [plan0], [], [], [], []⟩

/-- An approval environment in which the CSV upload succeeds. -/
def envCsvOk : ApproveEnv := ⟨false⟩

/-- An approval environment in which the CSV upload fails. -/
def envCsvFail : ApproveEnv := ⟨true⟩

/-! ## Claims -/

/-- C3: for every `approveExport` call that proceeds past Plan resolution,
exactly one UsageLedgerEntry with event export_approved and delta_credits -1
is appended, with no balance check, so `n` repeated approvals lower the
ledger sum by `n`. -/
theorem C3_ledger_debit_unconditional (u : User) (prev : VecResponse)
    (env : ApproveEnv) (st : Store) (lp : Plan)
    (h : latestPlan st.plans = some lp) :
    ((approveExport (some u) (some prev) env st).2.usage_ledger
        = st.usage_ledger ++ [LedgerEntry.mk u.id lp.id "export_approved" (-1)]) ∧
    ∀ n : Nat, ledgerSum (approveRepeat u prev env st n).usage_ledger
        = ledgerSum st.usage_ledger - (n : Int) := by
  refine ⟨approveExport_ledger u prev env st lp h, ?_⟩
  suffices H : ∀ (n : Nat) (s : Store), latestPlan s.plans = some lp →
      ledgerSum (approveRepeat u prev env s n).usage_ledger
        = ledgerSum s.usage_ledger - (n : Int) by
    exact fun n => H n st h
  intro n
  induction n with
  | zero => intro s _; simp [approveRepeat]
  | succ n ihn =>
    intro s hs
    have hplans := approveExport_plans (some u) (some prev) env s
    have hs2 : latestPlan ((approveExport (some u) (some prev) env s).2).plans
        = some lp := by rw [hplans]; exact hs
    simp only [approveRepeat]
    rw [ihn _ hs2, approveExport_ledger u prev env s lp hs, ledgerSum_append]
    push_cast
    ring

/-- Witness for C3 at a concrete one-plan store with two repeated
approvals. -/
theorem C3_ledger_debit_unconditional_witness :
    latestPlan stPlan.plans = some plan0 ∧
    ledgerSum (approveRepeat u0 prev0 envCsvOk stPlan 2).usage_ledger
      = ledgerSum stPlan.usage_ledger - (2 : Int) :=
  ⟨by decide,
   (C3_ledger_debit_unconditional u0 prev0 envCsvOk stPlan plan0 (by decide)).2 2⟩

/-- C4: `approveExport` resolves its target Plan as the most recently created
Plan row system-wide; with no Plan at all the call ends NotFound and writes
no Review row and no ledger row (the store is untouched). -/
theorem C4_latest_plan_resolution (u : User) (prev : VecResponse)
    (env : ApproveEnv) (st : Store) :
    (st.plans = [] →
      approveExport (some u) (some prev) env st = (.notFound, st)) ∧
    (∀ lp, latestPlan st.plans = some lp →
      lp ∈ st.plans ∧ (∀ q ∈ st.plans, q.created_at ≤ lp.created_at) ∧
      (approveExport (some u) (some prev) env st).2.reviews
        = st.reviews ++ [ReviewRow.mk lp.id "approved"] ∧
      (approveExport (some u) (some prev) env st).2.usage_ledger
        = st.usage_ledger ++ [LedgerEntry.mk u.id lp.id "export_approved" (-1)]) := by
  constructor
  · intro he
    have hl : latestPlan st.plans = none := by rw [he]; rfl
    simp [approveExport, hl]
  · intro lp hl
    exact ⟨(latestPlan_spec st.plans lp hl).1, (latestPlan_spec st.plans lp hl).2,
      approveExport_reviews u prev env st lp hl,
      approveExport_ledger u prev env st lp hl⟩

/-- Witness for C4 at a concrete one-plan store. -/
theorem C4_latest_plan_resolution_witness :
    latestPlan stPlan.plans = some plan0 ∧
    (approveExport (some u0) (some prev0) envCsvOk stPlan).2.reviews
      = stPlan.reviews ++ [ReviewRow.mk plan0.id "approved"] :=
  ⟨by decide,
   ((C4_latest_plan_resolution u0 prev0 envCsvOk stPlan).2 plan0 (by decide)).2.2.1⟩

/-- C5: when the CSV upload fails, `approveExport` ends with the storage
failure before touching the Output rows, and the Review row and ledger debit
written earlier in the same call are kept — the post-state is exactly the
pre-state plus those two rows. -/
theorem C5_csv_failure_no_rollback (u : User) (prev : VecResponse)
    (env : ApproveEnv) (st : Store) (lp : Plan)
    (h : latestPlan st.plans = some lp) (hf : env.csvUploadFails = true) :
    approveExport (some u) (some prev) env st =
      (.storageError,
        { st with
          reviews := st.reviews ++ [ReviewRow.mk lp.id "approved"],
          usage_ledger := st.usage_ledger ++
            [LedgerEntry.mk u.id lp.id "export_approved" (-1)] }) := by
  simp [approveExport, h, hf]

/-- Witness for C5 at a concrete one-plan store. -/
theorem C5_csv_failure_no_rollback_witness :
    approveExport (some u0) (some prev0) envCsvFail stPlan =
      (.storageError,
        { stPlan with
          reviews := stPlan.reviews ++ [ReviewRow.mk plan0.id "approved"],
          usage_ledger := stPlan.usage_ledger ++
            [LedgerEntry.mk u0.id plan0.id "export_approved" (-1)] }) :=
  C5_csv_failure_no_rollback u0 prev0 envCsvFail stPlan plan0 (by decide) rfl

/-- C7: the CSV artifact stored by a successful `approveExport` under
`user-{userId}/{planId}/page-1.csv` in the outputs bucket is exactly the
header line and the two metric lines, newline-terminated; at metrics
120.5 and 34 the artifact is the exact quoted string. -/
theorem C7_csv_artifact_and_path (u : User) (prev : VecResponse)
    (env : ApproveEnv) (st : Store) (lp : Plan)
    (h : latestPlan st.plans = some lp) (hf : env.csvUploadFails = false) :
    getBlob "outputs" ("user-" ++ u.id ++ "/" ++ toString lp.id ++ "/page-1.csv")
        ((approveExport (some u) (some prev) env st).2.blobs)
      = some (.text ("metric,value\n" ++ "walls_len_ft," ++ prev.metrics.walls_len_ft
          ++ "\n" ++ "line_count," ++ prev.metrics.line_count ++ "\n")) ∧
    buildCsv (Metrics.mk "120.5" "34")
      = "metric,value\nwalls_len_ft,120.5\nline_count,34\n" := by
  constructor
  · simp only [approveExport, h, hf, Bool.false_eq_true, if_false]
    exact getBlob_putBlob_same "outputs" _ _ _
  · rfl

/-- Witness for C7 at a concrete one-plan store. -/
theorem C7_csv_artifact_and_path_witness :
    getBlob "outputs" ("user-" ++ u0.id ++ "/" ++ toString plan0.id ++ "/page-1.csv")
        ((approveExport (some u0) (some prev0) envCsvOk stPlan).2.blobs)
      = some (.text ("metric,value\n" ++ "walls_len_ft," ++ prev0.metrics.walls_len_ft
          ++ "\n" ++ "line_count," ++ prev0.metrics.line_count ++ "\n")) ∧
    buildCsv (Metrics.mk "120.5" "34")
      = "metric,value\nwalls_len_ft,120.5\nline_count,34\n" :=
  C7_csv_artifact_and_path u0 prev0 envCsvOk stPlan plan0 (by decide) rfl

/-- C9: a failing Plan insert ends `handleUpload` with the persistence
failure and the store exactly as it was — no blob upload, no worker call
recorded, no rows of any kind. -/
theorem C9_plan_insert_failure_no_effects (u : User) (f : UploadFile)
    (env : Env) (st : Store) (h : env.planInsertFails = true) :
    handleUpload (some u) (some f) env st = (.persistenceError, st) := by
  simp [handleUpload, h]

/-- Witness for C9. -/
theorem C9_plan_insert_failure_no_effects_witness :
    handleUpload (some u0) (some (UploadFile.other "plan.png" "IMG"))
        (Env.mk true false (Except.error ()) false) stPlan
      = (.persistenceError, stPlan) :=
  C9_plan_insert_failure_no_effects u0 (UploadFile.other "plan.png" "IMG")
    (Env.mk true false (Except.error ()) false) stPlan rfl

/-- C10: with a null user or a missing required input, both operations
return at once as no-ops, leaving every table and every bucket exactly as it
was. -/
theorem C10_guard_noop (u : User) (f : UploadFile) (prev : VecResponse)
    (envU : Env) (envA : ApproveEnv) (st : Store) :
    handleUpload none (some f) envU st = (.noOp, st) ∧
    handleUpload (some u) none envU st = (.noOp, st) ∧
    handleUpload none none envU st = (.noOp, st) ∧
    approveExport none (some prev) envA st = (.noOp, st) ∧
    approveExport (some u) none envA st = (.noOp, st) ∧
    approveExport none none envA st = (.noOp, st) := by
  exact ⟨rfl, rfl, rfl, rfl, rfl, rfl⟩

/-- A fresh plan id matches no existing Output row: the filter is empty. -/
theorem filter_planId_eq_nil (l : List OutputRow) (n : Nat)
    (h : ∀ o ∈ l, o.plan_id < n) :
    l.filter (fun o => o.plan_id == n) = [] := by
  induction l with
  | nil => rfl
  | cons a tl ih =>
    have ha : a.plan_id ≠ n := Nat.ne_of_lt (h a (List.mem_cons_self a tl))
    simp only [List.filter_cons, beq_iff_eq, ha, if_false]
    exact ih (fun o ho => h o (List.mem_cons_of_mem a ho))

/-- A fresh plan id matches no existing Plan row: `find?` misses. -/
theorem find?_id_none (l : List Plan) (n : Nat) (h : ∀ q ∈ l, q.id ≠ n) :
    l.find? (fun q => q.id == n) = none := by
  induction l with
  | nil => rfl
  | cons a tl ih =>
    have ha : (a.id == n) = false := beq_eq_false_iff_ne.mpr (h a (List.mem_cons_self a tl))
    simp only [List.find?_cons, ha]
    exact ih (fun q hq => h q (List.mem_cons_of_mem a hq))

/-- `find?` on rows with fresh ids plus one appended row of the sought id
returns the appended row. -/
theorem find?_id_append (l : List Plan) (p : Plan) (n : Nat)
    (h : ∀ q ∈ l, q.id ≠ n) (hp : p.id = n) :
    (l ++ [p]).find? (fun q => q.id == n) = some p := by
  induction l with
  | nil => simp [List.find?, hp]
  | cons a tl ih =>
    have ha : (a.id == n) = false := beq_eq_false_iff_ne.mpr (h a (List.mem_cons_self a tl))
    simp only [List.cons_append, List.find?_cons, ha]
    exact ih (fun q hq => h q (List.mem_cons_of_mem a hq))

/-- The final Plan update of `handleUpload` leaves rows with other ids
untouched. -/
theorem map_update_fresh (l : List Plan) (n m : Nat)
    (h : ∀ p ∈ l, p.id ≠ n) :
    l.map (fun p => if p.id = n then
        { p with page_count := m, status := "processed" } else p) = l := by
  induction l with
  | nil => rfl
  | cons a tl ih =>
    have ha : a.id ≠ n := h a (List.mem_cons_self a tl)
    simp only [List.map_cons, ha, if_false, List.cons.injEq, true_and]
    exact ih (fun p hp => h p (List.mem_cons_of_mem a hp))

/-- On any store whose outputs keep the old table and whose plans are either
the old table or the old table plus one fresh row still in status `created`,
the fresh plan id has no Output row and any Plan row found at it is still
`created`. -/
theorem noOutput_and_created (st stx : Store)
    (hout : stx.outputs = st.outputs)
    (hpl : stx.plans = st.plans ∨
      ∃ np : Plan, stx.plans = st.plans ++ [np] ∧ np.id = st.nextId ∧
        np.status = "created")
    (hfo : ∀ o ∈ st.outputs, o.plan_id < st.nextId)
    (hne : ∀ p ∈ st.plans, p.id ≠ st.nextId) :
    outputsFor stx st.nextId = [] ∧
    ∀ pl, findPlan stx st.nextId = some pl → pl.status = "created" := by
  constructor
  · rw [outputsFor, hout]
    exact filter_planId_eq_nil st.outputs st.nextId hfo
  · intro pl hpl2
    rcases hpl with h1 | ⟨np, h1, h2, h3⟩
    · rw [findPlan, h1, find?_id_none st.plans st.nextId hne] at hpl2
      cases hpl2
    · rw [findPlan, h1, find?_id_append st.plans np st.nextId hne h2] at hpl2
      have h4 : np = pl := by injection hpl2
      rw [← h4]
      exact h3

/-- C1: a successful `handleUpload` leaves exactly one Output row for the
created Plan, the Plan in status processed with `page_count` the number of
rasterized pages, and status processed is reached only on the successful
exit, after the Output row is persisted: on every other exit the created
Plan (when it exists) is still `created` and owns no Output row. -/
theorem C1_success_invariant (u : User) (f : UploadFile) (env : Env) (st : Store)
    (hfresh : FreshIds st) :
    ((handleUpload (some u) (some f) env st).1 = .processed →
      ∃ pages, fileToPNGDataURL f = .ok pages ∧
        (outputsFor (handleUpload (some u) (some f) env st).2 st.nextId).length = 1 ∧
        ∃ pl, findPlan (handleUpload (some u) (some f) env st).2 st.nextId = some pl ∧
          pl.status = "processed" ∧ pl.page_count = pages.length) ∧
    ((handleUpload (some u) (some f) env st).1 ≠ .processed →
      outputsFor (handleUpload (some u) (some f) env st).2 st.nextId = [] ∧
      ∀ pl, findPlan (handleUpload (some u) (some f) env st).2 st.nextId = some pl →
        pl.status = "created") := by
  obtain ⟨hfp, hfo⟩ := hfresh
  have hne : ∀ p ∈ st.plans, p.id ≠ st.nextId := fun p hp => Nat.ne_of_lt (hfp p hp).1
  cases hpi : env.planInsertFails with
  | true =>
    refine ⟨fun h => ?_, fun _ => ?_⟩
    · simp [handleUpload, hpi] at h
    · refine noOutput_and_created st _ ?_ ?_ hfo hne
      · simp [handleUpload, hpi]
      · exact Or.inl (by simp [handleUpload, hpi])
  | false =>
    cases hr : fileToPNGDataURL f with
    | error e =>
      refine ⟨fun h => ?_, fun _ => ?_⟩
      · simp [handleUpload, hpi, hr] at h
      · refine noOutput_and_created st _ ?_ ?_ hfo hne
        · simp [handleUpload, hpi, hr]
        · refine Or.inr ⟨⟨st.nextId, u.id, f.fileName, 0, "created", st.nextId⟩, ?_, rfl, rfl⟩
          simp [handleUpload, hpi, hr]
    | ok dataUrls =>
      cases dataUrls with
      | nil =>
        refine ⟨fun h => ?_, fun _ => ?_⟩
        · simp [handleUpload, hpi, hr] at h
        · refine noOutput_and_created st _ ?_ ?_ hfo hne
          · simp [handleUpload, hpi, hr]
          · refine Or.inr ⟨⟨st.nextId, u.id, f.fileName, 0, "created", st.nextId⟩, ?_, rfl, rfl⟩
            simp [handleUpload, hpi, hr]
      | cons fp rest =>
        cases hpu : env.pageUploadFails with
        | true =>
          refine ⟨fun h => ?_, fun _ => ?_⟩
          · simp [handleUpload, hpi, hr, hpu] at h
          · refine noOutput_and_created st _ ?_ ?_ hfo hne
            · simp [handleUpload, hpi, hr, hpu]
            · refine Or.inr ⟨⟨st.nextId, u.id, f.fileName, 0, "created", st.nextId⟩, ?_, rfl, rfl⟩
              simp [handleUpload, hpi, hr, hpu]
        | false =>
          cases hv : env.vectorizeResult with
          | error ev =>
            refine ⟨fun h => ?_, fun _ => ?_⟩
            · simp [handleUpload, hpi, hr, hpu, hv] at h
            · refine noOutput_and_created st _ ?_ ?_ hfo hne
              · simp [handleUpload, hpi, hr, hpu, hv]
              · refine Or.inr ⟨⟨st.nextId, u.id, f.fileName, 0, "created", st.nextId⟩, ?_, rfl, rfl⟩
                simp [handleUpload, hpi, hr, hpu, hv]
          | ok json =>
            cases ha : atob json.svg with
            | none =>
              refine ⟨fun h => ?_, fun _ => ?_⟩
              · simp [handleUpload, hpi, hr, hpu, hv, ha] at h
              · refine noOutput_and_created st _ ?_ ?_ hfo hne
                · simp [handleUpload, hpi, hr, hpu, hv, ha]
                · refine Or.inr ⟨⟨st.nextId, u.id, f.fileName, 0, "created", st.nextId⟩, ?_, rfl, rfl⟩
                  simp [handleUpload, hpi, hr, hpu, hv, ha]
            | some svgBytes =>
              cases hsu : env.svgUploadFails with
              | true =>
                refine ⟨fun h => ?_, fun _ => ?_⟩
                · simp [handleUpload, hpi, hr, hpu, hv, ha, hsu] at h
                · refine noOutput_and_created st _ ?_ ?_ hfo hne
                  · simp [handleUpload, hpi, hr, hpu, hv, ha, hsu]
                  · refine Or.inr ⟨⟨st.nextId, u.id, f.fileName, 0, "created", st.nextId⟩, ?_, rfl, rfl⟩
                    simp [handleUpload, hpi, hr, hpu, hv, ha, hsu]
              | false =>
                refine ⟨fun _ => ?_, fun h => ?_⟩
                · refine ⟨fp :: rest, rfl, ?_, ?_⟩
                  · have houts : (handleUpload (some u) (some f) env st).2.outputs
                        = st.outputs ++ [⟨st.nextId, svgPathOf u.id st.nextId, none, none,
                            json.metrics, json.confidence⟩] := by
                      simp [handleUpload, hpi, hr, hpu, hv, ha, hsu]
                    rw [outputsFor, houts, List.filter_append,
                      filter_planId_eq_nil st.outputs st.nextId hfo]
                    simp
                  · have hplans : (handleUpload (some u) (some f) env st).2.plans
                        = st.plans ++ [⟨st.nextId, u.id, f.fileName, rest.length + 1,
                            "processed", st.nextId⟩] := by
                      simp [handleUpload, hpi, hr, hpu, hv, ha, hsu,
                        map_update_fresh st.plans st.nextId (rest.length + 1) hne]
                    refine ⟨⟨st.nextId, u.id, f.fileName, rest.length + 1,
                      "processed", st.nextId⟩, ?_, rfl, rfl⟩
                    rw [findPlan, hplans]
                    exact find?_id_append st.plans _ st.nextId hne rfl
                · exact absurd (by simp [handleUpload, hpi, hr, hpu, hv, ha, hsu]) h

/-- A concrete non-PDF upload. -/
def fileImg : UploadFile := .other "plan.png" "IMGDATA"

/-- An upload environment in which every store write succeeds and the worker
answers with `prev0`. -/
def envUpOk : Env := ⟨false, false, .ok prev0, false⟩

/-- Witness for C1: on the concrete successful run, exactly one Output row
exists for the created Plan. -/
theorem C1_success_invariant_witness :
    (outputsFor (handleUpload (some u0) (some fileImg) envUpOk stPlan).2
      stPlan.nextId).length = 1 := by
  obtain ⟨pages, h1, h2, h3⟩ :=
    (C1_success_invariant u0 fileImg envUpOk stPlan (by decide)).1 (by decide)
  exact h2

/-- C2: when the worker call fails — a rejected or non-JSON response, or a
payload whose svg field `atob` rejects — `handleUpload` ends with the
vectorization failure, creates no Output row, leaves the created Plan in its
pre-processed state (status created, `page_count` 0), and keeps the already
uploaded first-page raster blob. -/
theorem C2_vectorize_failure_state (u : User) (f : UploadFile) (env : Env)
    (st : Store) (hfresh : FreshIds st)
    (hpi : env.planInsertFails = false)
    (fp : PageImage) (rest : List PageImage)
    (hr : fileToPNGDataURL f = .ok (fp :: rest))
    (hpu : env.pageUploadFails = false)
    (hv : env.vectorizeResult = .error () ∨
      ∃ json, env.vectorizeResult = .ok json ∧ atob json.svg = none) :
    (handleUpload (some u) (some f) env st).1 = .vectorizationError ∧
    (handleUpload (some u) (some f) env st).2.outputs = st.outputs ∧
    (∃ pl, findPlan (handleUpload (some u) (some f) env st).2 st.nextId = some pl ∧
      pl.status = "created" ∧ pl.page_count = 0) ∧
    getBlob "plans" (pngPath u.id st.nextId)
        ((handleUpload (some u) (some f) env st).2.blobs) = some (.image fp) := by
  obtain ⟨hfp, hfo⟩ := hfresh
  have hne : ∀ p ∈ st.plans, p.id ≠ st.nextId := fun p hp => Nat.ne_of_lt (hfp p hp).1
  have hplans : (handleUpload (some u) (some f) env st).2.plans
      = st.plans ++ [⟨st.nextId, u.id, f.fileName, 0, "created", st.nextId⟩] := by
    rcases hv with hv | ⟨json, hv, ha⟩
    · simp [handleUpload, hpi, hr, hpu, hv]
    · simp [handleUpload, hpi, hr, hpu, hv, ha]
  have hfind : findPlan (handleUpload (some u) (some f) env st).2 st.nextId
      = some ⟨st.nextId, u.id, f.fileName, 0, "created", st.nextId⟩ := by
    rw [findPlan, hplans]
    exact find?_id_append st.plans _ st.nextId hne rfl
  have hblob : (handleUpload (some u) (some f) env st).2.blobs
      = putBlob "plans" (pngPath u.id st.nextId) (.image fp) st.blobs := by
    rcases hv with hv | ⟨json, hv, ha⟩
    · simp [handleUpload, hpi, hr, hpu, hv]
    · simp [handleUpload, hpi, hr, hpu, hv, ha]
  refine ⟨?_, ?_, ⟨_, hfind, rfl, rfl⟩, ?_⟩
  · rcases hv with hv | ⟨json, hv, ha⟩
    · simp [handleUpload, hpi, hr, hpu, hv]
    · simp [handleUpload, hpi, hr, hpu, hv, ha]
  · rcases hv with hv | ⟨json, hv, ha⟩
    · simp [handleUpload, hpi, hr, hpu, hv]
    · simp [handleUpload, hpi, hr, hpu, hv, ha]
  · rw [hblob]
    exact getBlob_putBlob_same "plans" (pngPath u.id st.nextId) (.image fp) st.blobs

/-- An upload environment whose worker call fails. -/
def envVecFail : Env := ⟨false, false, .error (), false⟩

/-- Witness for C2 on a concrete failing worker call. -/
theorem C2_vectorize_failure_state_witness :
    (handleUpload (some u0) (some fileImg) envVecFail stPlan).1 = .vectorizationError ∧
    (handleUpload (some u0) (some fileImg) envVecFail stPlan).2.outputs = stPlan.outputs ∧
    getBlob "plans" (pngPath u0.id stPlan.nextId)
        ((handleUpload (some u0) (some fileImg) envVecFail stPlan).2.blobs)
      = some (.image (PageImage.objectURL "IMGDATA")) := by
  have h := C2_vectorize_failure_state u0 fileImg envVecFail stPlan (by decide) rfl
    (PageImage.objectURL "IMGDATA") [] rfl rfl (Or.inl rfl)
  exact ⟨h.1, h.2.1, h.2.2.2⟩

/-- Counterexample to C6 as stated: a zero-page PDF does not fail with
UnsupportedFormat — the rasterizer succeeds with an empty page list. -/
theorem C6_zero_page_pdf_counterexample :
    fileToPNGDataURL (UploadFile.pdf "empty.pdf" []) = .ok [] := rfl

/-- C6, amended: a PDF with N pages yields exactly min(N, 5) images, each a
page rendered at scale 2.0, pages beyond the fifth silently dropped; any
non-PDF file is returned unchanged as a one-element sequence; a zero-page
PDF yields the empty sequence rather than an error; the only failure is an
unparseable PDF, which aborts with the PDF load failure rather than an
UnsupportedFormat error. -/
theorem C6_rasterizer_behavior (nm content : String) (pages : List String) :
    (fileToPNGDataURL (UploadFile.pdf nm pages)
        = .ok ((pages.take 5).map (PageImage.rendered 2)) ∧
      ((pages.take 5).map (PageImage.rendered 2)).length = min pages.length 5) ∧
    fileToPNGDataURL (UploadFile.other nm content)
      = .ok [PageImage.objectURL content] ∧
    fileToPNGDataURL (UploadFile.pdfMalformed nm) = .error .pdfLoadFailure := by
  refine ⟨⟨rfl, ?_⟩, rfl, rfl⟩
  simp [List.length_take, Nat.min_comm]

/-- An upload environment whose worker answers with the single payload byte
0xC2 (194), base64-encoded. -/
def envSvg194 : Env :=
  ⟨false, false, .ok ⟨base64Encode [194], ⟨"120.5", "34"⟩, "0.9"⟩, false⟩

/-- C8 fails on the code: the service encodes the payload byte 194 (0xC2);
`atob` decodes it back faithfully, but the `Blob([string])` store UTF-8
encodes the decoded string, so the blob persisted by the successful run
holds the bytes 195, 130 — not the original byte 194. Decode-then-store is
not byte-exact outside the ASCII range. -/
theorem C8_svg_store_not_byte_exact :
    atob (base64Encode [194]) = some [194] ∧
    (handleUpload (some u0) (some fileImg) envSvg194 stPlan).1 = .processed ∧
    getBlob "outputs" (svgPathOf u0.id stPlan.nextId)
        ((handleUpload (some u0) (some fileImg) envSvg194 stPlan).2.blobs)
      = some (.bytes [195, 130]) ∧
    ([195, 130] : List Nat) ≠ [194] := by
  refine ⟨by decide, by decide, by decide, by decide⟩
